import Mathlib

/-!
Verification of the real-estate listing backend (`backend/server.py`).

The FastAPI handlers are shallowly embedded as pure Lean functions over an
explicit store state (`DBState`).  MongoDB is modelled as the lists held in
the state: `find_one` is `List.find?`, `insert_one` appends, `update_one`
rewrites the first matching document, `delete_one` removes the first
matching document, and a `find(filter)` query is `List.filter` against the
interpretation of the filter document.  The `$regex` operator with option
`"i"` is modelled with regular-expression matching (Mathlib's
`RegularExpression`): the pattern string is parsed by `parsePat` into a
regular expression (lowercased, since the option `"i"` is always used in
this code base), and a document field matches when some substring of the
lowercased field is accepted (`rsearch`), which is PCRE's unanchored
search.  Patterns using constructs outside the parsed subset
(character classes, anchors, `.` and counted repetition) are out of the
modelled domain and `parsePat` returns `none` on them.

Floats are modelled as `Rat` (only order comparisons occur), Python `int`
as `Int`, `datetime` instants as `Int` minutes, and UUID generation /
password hashing / JWT signing are opaque inputs passed explicitly.
HTTP errors carry the literal status code and detail string of the
`HTTPException` raised by the code.
-/

namespace RealEstate

/-- Enum `PropertyType` of `server.py`. -/
inductive PropertyType where
  | apartment | house | villa | commercial | land
deriving DecidableEq, Repr

/-- Enum `PropertyStatus` of `server.py`. -/
inductive PropertyStatus where
  | for_sale | for_rent | sold | rented
deriving DecidableEq, Repr

/-- Enum `UserRole` of `server.py`. -/
inductive UserRole where
  | buyer | seller | agent
deriving DecidableEq, Repr

/-- Model `User` of `server.py` (the pydantic response model; the stored
document additionally carries `hashed_password`, see `StoredUser`). -/
structure User where
  id : String
  email : String
  full_name : String
  phone : Option String := none
  role : UserRole := .buyer
  is_active : Bool := true
  created_at : Int
  updated_at : Int
deriving DecidableEq, Repr

/-- Stored user document: the `User` fields plus `hashed_password`,
exactly as `register` inserts it. -/
structure StoredUser where
  user : User
  hashed_password : String
deriving DecidableEq, Repr

/-- Model `Property` of `server.py`. -/
structure Property where
  id : String
  title : String
  description : String
  property_type : PropertyType
  status : PropertyStatus
  price : Rat
  bedrooms : Int
  bathrooms : Int
  area_sqft : Rat
  address : String
  city : String
  state : String
  zip_code : String
  country : String := "USA"
  latitude : Option Rat := none
  longitude : Option Rat := none
  images : List String := []
  amenities : List String := []
  year_built : Option Int := none
  parking_spaces : Option Int := none
  owner_id : String
  agent_id : Option String := none
  is_featured : Bool := false
  views : Int := 0
  created_at : Int
  updated_at : Int
deriving DecidableEq, Repr

/-- Model `PropertyUpdate` of `server.py`: every field optional, absent by
default.  Note it has no `id`, `owner_id`, `views`, `created_at`,
`country` or `agent_id` field. -/
structure PropertyUpdate where
  title : Option String := none
  description : Option String := none
  property_type : Option PropertyType := none
  status : Option PropertyStatus := none
  price : Option Rat := none
  bedrooms : Option Int := none
  bathrooms : Option Int := none
  area_sqft : Option Rat := none
  address : Option String := none
  city : Option String := none
  state : Option String := none
  zip_code : Option String := none
  latitude : Option Rat := none
  longitude : Option Rat := none
  images : Option (List String) := none
  amenities : Option (List String) := none
  year_built : Option Int := none
  parking_spaces : Option Int := none
  is_featured : Option Bool := none
deriving DecidableEq, Repr

/-- Model `Inquiry` of `server.py`. -/
structure Inquiry where
  id : String
  property_id : String
  user_id : String
  message : String
  contact_email : String
  contact_phone : Option String := none
  status : String := "new"
  created_at : Int
deriving DecidableEq, Repr

/-- Model `Favorite` of `server.py`. -/
structure Favorite where
  id : String
  user_id : String
  property_id : String
  created_at : Int
deriving DecidableEq, Repr

/-- Model `PropertySearch` of `server.py` with its pydantic defaults. -/
structure PropertySearch where
  query : Option String := none
  property_type : Option PropertyType := none
  status : Option PropertyStatus := none
  min_price : Option Rat := none
  max_price : Option Rat := none
  min_bedrooms : Option Int := none
  max_bedrooms : Option Int := none
  min_bathrooms : Option Int := none
  max_bathrooms : Option Int := none
  city : Option String := none
  state : Option String := none
  min_area : Option Rat := none
  max_area : Option Rat := none
  is_featured : Option Bool := none
  page : Int := 1
  limit : Int := 20
deriving DecidableEq, Repr

/-- Model of an `HTTPException`: status code and detail string. -/
structure HError where
  status : Nat
  detail : String
deriving DecidableEq, Repr

/-- The persistent store: the four MongoDB collections used by the code. -/
structure DBState where
  users : List StoredUser := []
  properties : List Property := []
  favorites : List Favorite := []
  inquiries : List Inquiry := []
deriving DecidableEq, Repr

/-- Model of the decoded JWT payload: subject id and absolute expiry
(minutes). -/
structure TokenRec where
  sub : String
  exp : Int
deriving DecidableEq, Repr

/-- Model `Token` of `server.py` (the login/register response envelope),
with the signed token abstracted to its payload. -/
structure Token where
  access_token : TokenRec
  token_type : String
  user : User
deriving DecidableEq, Repr

/-- Mongo `update_one`: rewrite the first document matching `p` by `f`. -/
def updateFirst (p : α → Bool) (f : α → α) : List α → List α
  | [] => []
  | x :: xs => if p x then f x :: xs else x :: updateFirst p f xs

/-- Mongo `delete_one`: remove the first document matching `p`. -/
def removeFirst (p : α → Bool) : List α → List α
  | [] => []
  | x :: xs => if p x then xs else x :: removeFirst p xs

/-! Model of MongoDB `$regex` matching with option `"i"`.

A regular expression over `Char` (Mathlib's `RegularExpression`) is built
from the pattern string by a single-pass stack parser covering the PCRE
constructs literal character, escape, `|`, `*`, `+`, `?` and groups;
`[`, `]`, `{`, `}`, `^`, `$`, `.` and alphanumeric escapes are outside the
modelled domain (the parser answers `none`).  Matching is case-folded by
lowercasing both the pattern literals and the subject, and unanchored:
the document field matches when the expression accepts some contiguous
slice of it. -/

/-- Regular expressions over characters. -/
abbrev RE := RegularExpression Char

/-- Parser context: the alternatives completed so far and the factors of
the current alternative, both in reverse order. -/
structure PCtx where
  alts : List RE := []
  seq : List RE := []

/-- Concatenation of a reversed factor list (empty list is `1`, the
regular expression accepting only the empty string). -/
def finishSeq (seq : List RE) : RE :=
  match seq.reverse with
  | [] => 1
  | f :: fs => fs.foldl (· * ·) f

/-- Alternation of the completed alternatives and the current sequence. -/
def finishCtx (ctx : PCtx) : RE :=
  match ctx.alts.reverse with
  | [] => finishSeq ctx.seq
  | a :: as => .plus (as.foldl .plus a) (finishSeq ctx.seq)

/-- Characters that start a construct outside the modelled regex
subset. -/
def unsupportedChar (c : Char) : Bool :=
  c == '[' || c == ']' || c == '{' || c == '}' || c == '^' || c == '$' || c == '.'

/-- Token alphabet of the regex parser. -/
inductive PTok where
  | lparen | rparen | alt | star | plus | quest | bad
  | lit (c : Char)
deriving DecidableEq, Repr

/-- Classify one (unescaped) pattern character; literals are lowercased
(option `"i"`). -/
def tokOf (c : Char) : PTok :=
  if c == '(' then .lparen
  else if c == ')' then .rparen
  else if c == '|' then .alt
  else if c == '*' then .star
  else if c == '+' then .plus
  else if c == '?' then .quest
  else if unsupportedChar c then .bad
  else .lit c.toLower

/-- Tokenize the pattern; the flag records a pending backslash escape.
An escaped non-alphanumeric character is that literal; an escaped
alphanumeric (a character class like `\\d`) is outside the modelled
subset. -/
def lexPat : List Char → Bool → Option (List PTok)
  | [], esc => if esc then none else some []
  | c :: rest, esc =>
    if esc then
      if c.isAlphanum then none
      else (lexPat rest false).map fun ts => PTok.lit c.toLower :: ts
    else if c == '\\' then lexPat rest true
    else (lexPat rest false).map fun ts => tokOf c :: ts

/-- Parse the token stream.  `stk` holds the contexts of the enclosing
open groups. -/
def parseToks : List PTok → PCtx → List PCtx → Option RE
  | [], ctx, [] => some (finishCtx ctx)
  | [], _, _ :: _ => none
  | .lparen :: rest, ctx, stk => parseToks rest {} (ctx :: stk)
  | .rparen :: _, _, [] => none
  | .rparen :: rest, ctx, parent :: stk2 =>
    parseToks rest { parent with seq := finishCtx ctx :: parent.seq } stk2
  | .alt :: rest, ctx, stk =>
    parseToks rest { alts := finishSeq ctx.seq :: ctx.alts, seq := [] } stk
  | .star :: _, ⟨_, []⟩, _ => none
  | .star :: rest, ⟨alts, f :: fs⟩, stk =>
    parseToks rest ⟨alts, RegularExpression.star f :: fs⟩ stk
  | .plus :: _, ⟨_, []⟩, _ => none
  | .plus :: rest, ⟨alts, f :: fs⟩, stk =>
    parseToks rest ⟨alts, (f * RegularExpression.star f) :: fs⟩ stk
  | .quest :: _, ⟨_, []⟩, _ => none
  | .quest :: rest, ⟨alts, f :: fs⟩, stk =>
    parseToks rest ⟨alts, (f + 1) :: fs⟩ stk
  | .bad :: _, _, _ => none
  | .lit c :: rest, ctx, stk =>
    parseToks rest { ctx with seq := RegularExpression.char c :: ctx.seq } stk

/-- Parse a pattern string into a (lowercased) regular expression. -/
def parsePat (pat : String) : Option RE :=
  (lexPat pat.data false).bind fun ts => parseToks ts {} []

/-- Decidable bounded check: the expression accepts some prefix of `s`. -/
def hasPrefixMatch (r : RE) (s : List Char) : Bool :=
  (List.range (s.length + 1)).any fun j => r.rmatch (s.take j)

/-- Unanchored search: the expression accepts some contiguous slice. -/
def rsearch (r : RE) : List Char → Bool
  | [] => hasPrefixMatch r []
  | c :: t => hasPrefixMatch r (c :: t) || rsearch r t

/-- Semantics of the Mongo filter condition
`{field: {"$regex": pat, "$options": "i"}}` against field value `text`. -/
def mongoRegexMatch (pat text : String) : Bool :=
  match parsePat pat with
  | some r => rsearch r (text.data.map Char.toLower)
  | none => false

/-- Boolean test that `p` is an initial segment of `s`. -/
def startsWithList : List Char → List Char → Bool
  | [], _ => true
  | _ :: _, [] => false
  | a :: as, b :: bs => a == b && startsWithList as bs

/-- Boolean test that `p` occurs as a contiguous slice of `s`. -/
def containsSlice (p : List Char) : List Char → Bool
  | [] => startsWithList p []
  | c :: t => startsWithList p (c :: t) || containsSlice p t

/-- Case-insensitive substring test, the reading of free-text match used
by the specification. -/
def substrCI (needle hay : String) : Bool :=
  containsSlice (needle.data.map Char.toLower) (hay.data.map Char.toLower)

/-- Characters with no regex meaning in the modelled subset: a pattern of
plain characters is a literal string pattern. -/
def plainChar (c : Char) : Bool :=
  !(c == '(' || c == ')' || c == '|' || c == '*' || c == '+' || c == '?' ||
    c == '\\' || unsupportedChar c)

/-! Embedding of the handler functions of `server.py`. -/

/-- Constant `ACCESS_TOKEN_EXPIRE_MINUTES` of `server.py`. -/
def ACCESS_TOKEN_EXPIRE_MINUTES : Int := 30

/-- Helper `create_access_token` of `server.py`.  The Python code tests
`if expires_delta:`, so both `None` and a zero `timedelta` fall back to
the hardcoded `timedelta(minutes=15)`. -/
def create_access_token (sub : String) (expires_delta : Option Int) (now : Int) : TokenRec :=
  let exp : Int :=
    match expires_delta with
    | some d => if d ≠ 0 then now + d else now + 15
    | none => now + 15
  { sub := sub, exp := exp }

/-- Handler `register` of `server.py`.  `hashFn` stands for the opaque
bcrypt hash, `newId` for the generated UUID, `now` for
`datetime.utcnow()`. -/
def register (email password full_name : String) (phone : Option String)
    (role : UserRole) (hashFn : String → String) (newId : String) (now : Int)
    (s : DBState) : Except HError Token × DBState :=
  match s.users.find? (fun su => su.user.email == email) with
  | some _ => (.error ⟨400, "Email already registered"⟩, s)
  | none =>
    let user : User :=
      { id := newId, email := email, full_name := full_name, phone := phone,
        role := role, is_active := true, created_at := now, updated_at := now }
    let doc : StoredUser := { user := user, hashed_password := hashFn password }
    let tok := create_access_token user.id (some ACCESS_TOKEN_EXPIRE_MINUTES) now
    (.ok { access_token := tok, token_type := "bearer", user := user },
     { s with users := s.users ++ [doc] })

/-- Handler `login` of `server.py`.  `verifyFn` stands for the opaque
bcrypt verification. -/
def login (email password : String) (verifyFn : String → String → Bool)
    (now : Int) (s : DBState) : Except HError Token × DBState :=
  match s.users.find? (fun su => su.user.email == email) with
  | none => (.error ⟨401, "Incorrect email or password"⟩, s)
  | some doc =>
    if verifyFn password doc.hashed_password then
      let tok := create_access_token doc.user.id (some ACCESS_TOKEN_EXPIRE_MINUTES) now
      (.ok { access_token := tok, token_type := "bearer", user := doc.user }, s)
    else (.error ⟨401, "Incorrect email or password"⟩, s)

/-- Dependency `get_current_user` of `server.py`: validate the token
(PyJWT rejects a token whose `exp` lies before `now`) and resolve the
subject against the user collection. -/
def get_current_user (tok : TokenRec) (now : Int) (s : DBState) : Except HError User :=
  if tok.exp < now then .error ⟨401, "Invalid authentication credentials"⟩
  else
    match s.users.find? (fun su => su.user.id == tok.sub) with
    | none => .error ⟨401, "User not found"⟩
    | some su => .ok su.user

/-- Handler `get_property` of `server.py`: fetch by id, `$inc` the stored
`views` by 1, and return the fetched document with `views` bumped. -/
def get_property (pid : String) (s : DBState) : Except HError Property × DBState :=
  match s.properties.find? (fun p => p.id == pid) with
  | none => (.error ⟨404, "Property not found"⟩, s)
  | some doc =>
    let props := updateFirst (fun p => p.id == pid)
      (fun p => { p with views := p.views + 1 }) s.properties
    let s' := { s with properties := props }
    (.ok { doc with views := doc.views + 1 }, s')

/-- Merge of `update_property`: `$set` of the non-null payload fields plus
`updated_at`.  Mirrors `{k: v for k, v in property_update.dict().items()
if v is not None}`. -/
def applyUpdate (doc : Property) (u : PropertyUpdate) (now : Int) : Property :=
  { doc with
    title := u.title.getD doc.title,
    description := u.description.getD doc.description,
    property_type := u.property_type.getD doc.property_type,
    status := u.status.getD doc.status,
    price := u.price.getD doc.price,
    bedrooms := u.bedrooms.getD doc.bedrooms,
    bathrooms := u.bathrooms.getD doc.bathrooms,
    area_sqft := u.area_sqft.getD doc.area_sqft,
    address := u.address.getD doc.address,
    city := u.city.getD doc.city,
    state := u.state.getD doc.state,
    zip_code := u.zip_code.getD doc.zip_code,
    latitude := (u.latitude.map some).getD doc.latitude,
    longitude := (u.longitude.map some).getD doc.longitude,
    images := u.images.getD doc.images,
    amenities := u.amenities.getD doc.amenities,
    year_built := (u.year_built.map some).getD doc.year_built,
    parking_spaces := (u.parking_spaces.map some).getD doc.parking_spaces,
    is_featured := u.is_featured.getD doc.is_featured,
    updated_at := now }

/-- Handler `update_property` of `server.py`: 404 when the id resolves to
no document, 403 when the requester is neither the stored owner nor an
agent, otherwise `$set` the non-null fields and re-fetch. -/
def update_property (pid : String) (upd : PropertyUpdate) (u : User) (now : Int)
    (s : DBState) : Except HError Property × DBState :=
  match s.properties.find? (fun p => p.id == pid) with
  | none => (.error ⟨404, "Property not found"⟩, s)
  | some doc =>
    if doc.owner_id != u.id && u.role != UserRole.agent then
      (.error ⟨403, "Not authorized to update this property"⟩, s)
    else
      let props := updateFirst (fun p => p.id == pid)
        (fun p => applyUpdate p upd now) s.properties
      let s' := { s with properties := props }
      match s'.properties.find? (fun p => p.id == pid) with
      | some d => (.ok d, s')
      | none => (.error ⟨500, "Internal Server Error"⟩, s')

/-- Handler `delete_property` of `server.py`. -/
def delete_property (pid : String) (u : User) (s : DBState) :
    Except HError String × DBState :=
  match s.properties.find? (fun p => p.id == pid) with
  | none => (.error ⟨404, "Property not found"⟩, s)
  | some doc =>
    if doc.owner_id != u.id && u.role != UserRole.agent then
      (.error ⟨403, "Not authorized to delete this property"⟩, s)
    else
      let props := removeFirst (fun p => p.id == pid) s.properties
      (.ok "Property deleted successfully", { s with properties := props })

/-- Handler `add_to_favorites` of `server.py`: 404 when the property does
not exist, 400 (`"Property already in favorites"`) when the
(user, property) favorite already exists, otherwise insert. -/
def add_to_favorites (pid : String) (u : User) (newId : String) (now : Int)
    (s : DBState) : Except HError String × DBState :=
  match s.properties.find? (fun p => p.id == pid) with
  | none => (.error ⟨404, "Property not found"⟩, s)
  | some _ =>
    match s.favorites.find? (fun f => f.user_id == u.id && f.property_id == pid) with
    | some _ => (.error ⟨400, "Property already in favorites"⟩, s)
    | none =>
      let fav : Favorite :=
        { id := newId, user_id := u.id, property_id := pid, created_at := now }
      (.ok "Property added to favorites", { s with favorites := s.favorites ++ [fav] })

/-- Handler `remove_from_favorites` of `server.py`: `delete_one` on the
(user, property) pair, 404 when it deleted nothing. -/
def remove_from_favorites (pid : String) (u : User) (s : DBState) :
    Except HError String × DBState :=
  match s.favorites.find? (fun f => f.user_id == u.id && f.property_id == pid) with
  | none => (.error ⟨404, "Favorite not found"⟩, s)
  | some _ =>
    let favs := removeFirst (fun f => f.user_id == u.id && f.property_id == pid) s.favorites
    (.ok "Property removed from favorites", { s with favorites := favs })

/-- Handler `get_inquiries` of `server.py`.  Both queries run through
`to_list(1000)`, so each result list is capped at the first 1000
matches (and for non-buyers the owned-property list feeding the
`$in` filter is itself capped at 1000). -/
def get_inquiries (u : User) (s : DBState) : List Inquiry :=
  if u.role == UserRole.buyer then
    (s.inquiries.filter (fun i => i.user_id == u.id)).take 1000
  else
    let userProps := (s.properties.filter (fun p => p.owner_id == u.id)).take 1000
    let pids := userProps.map (fun p => p.id)
    (s.inquiries.filter (fun i => pids.contains i.property_id)).take 1000

/-- Handler `create_inquiry` of `server.py`: no property-existence check;
`user_id` forced to the caller. -/
def create_inquiry (property_id message contact_email : String)
    (contact_phone : Option String) (u : User) (newId : String) (now : Int)
    (s : DBState) : Except HError Inquiry × DBState :=
  let inq : Inquiry :=
    { id := newId, property_id := property_id, user_id := u.id,
      message := message, contact_email := contact_email,
      contact_phone := contact_phone, status := "new", created_at := now }
  (.ok inq, { s with inquiries := s.inquiries ++ [inq] })

/-! Embedding of `search_properties`: the handler first builds a Mongo
filter document from the present criteria (`buildSearchFilter` below, one
condition per key of `filter_dict` in source order), then runs
`find(filter).skip(skip).limit(limit).to_list(limit)`. -/

/-- String document fields a `$regex` condition can target. -/
inductive StrField where
  | title | description | address | city | state
deriving DecidableEq, Repr

/-- Rat-valued document fields a range condition can target. -/
inductive RatField where
  | price | area_sqft
deriving DecidableEq, Repr

/-- Int-valued document fields a range condition can target. -/
inductive IntField where
  | bedrooms | bathrooms
deriving DecidableEq, Repr

/-- One key of the Mongo filter document built by `search_properties`. -/
inductive Cond where
  | orText (pat : String)
  | eqType (t : PropertyType)
  | eqStatus (t : PropertyStatus)
  | rangeR (f : RatField) (lo hi : Option Rat)
  | rangeI (f : IntField) (lo hi : Option Int)
  | regexStr (f : StrField) (pat : String)
  | eqFeatured (b : Bool)
deriving DecidableEq, Repr

/-- Read a string field of a property document. -/
def strField (p : Property) : StrField → String
  | .title => p.title
  | .description => p.description
  | .address => p.address
  | .city => p.city
  | .state => p.state

/-- Read a Rat field of a property document. -/
def ratField (p : Property) : RatField → Rat
  | .price => p.price
  | .area_sqft => p.area_sqft

/-- Read an Int field of a property document. -/
def intField (p : Property) : IntField → Int
  | .bedrooms => p.bedrooms
  | .bathrooms => p.bathrooms

/-- Mongo semantics of an inclusive `$gte`/`$lte` pair, each bound
optional. -/
def rangeHolds [LE α] [DecidableRel (α := α) (· ≤ ·)] (lo hi : Option α) (v : α) : Bool :=
  (match lo with | none => true | some m => decide (m ≤ v)) &&
  (match hi with | none => true | some m => decide (v ≤ m))

/-- Mongo semantics of one filter condition against a document. -/
def condHolds (p : Property) : Cond → Bool
  | .orText pat =>
    mongoRegexMatch pat p.title || mongoRegexMatch pat p.description ||
    mongoRegexMatch pat p.address || mongoRegexMatch pat p.city
  | .eqType t => p.property_type == t
  | .eqStatus t => p.status == t
  | .rangeR f lo hi => rangeHolds lo hi (ratField p f)
  | .rangeI f lo hi => rangeHolds lo hi (intField p f)
  | .regexStr f pat => mongoRegexMatch pat (strField p f)
  | .eqFeatured b => p.is_featured == b

/-- Python truthiness of an optional string (`if search_params.query:`):
absent and empty both count as false. -/
def truthyStr : Option String → Bool
  | none => false
  | some q => q != ""

/-- Filter document of `search_properties`, one entry per `filter_dict`
key, in the order the code adds them. -/
def buildSearchFilter (sp : PropertySearch) : List Cond :=
  (if truthyStr sp.query then [.orText (sp.query.getD "")] else []) ++
  (match sp.property_type with | some t => [.eqType t] | none => []) ++
  (match sp.status with | some t => [.eqStatus t] | none => []) ++
  (match sp.min_price, sp.max_price with
   | none, none => [] | lo, hi => [.rangeR .price lo hi]) ++
  (match sp.min_bedrooms, sp.max_bedrooms with
   | none, none => [] | lo, hi => [.rangeI .bedrooms lo hi]) ++
  (match sp.min_bathrooms, sp.max_bathrooms with
   | none, none => [] | lo, hi => [.rangeI .bathrooms lo hi]) ++
  (match sp.min_area, sp.max_area with
   | none, none => [] | lo, hi => [.rangeR .area_sqft lo hi]) ++
  (if truthyStr sp.city then [.regexStr .city (sp.city.getD "")] else []) ++
  (if truthyStr sp.state then [.regexStr .state (sp.state.getD "")] else []) ++
  (match sp.is_featured with | some b => [.eqFeatured b] | none => [])

/-- Handler `search_properties` of `server.py`:
`skip = (page - 1) * limit`, then
`find(filter_dict).skip(skip).limit(limit).to_list(limit)`. -/
def search_properties (sp : PropertySearch) (s : DBState) : List Property :=
  let skip := (sp.page - 1) * sp.limit
  let conds := buildSearchFilter sp
  (((s.properties.filter fun p => conds.all (condHolds p)).drop skip.toNat).take sp.limit.toNat)

/-- Specification-shaped search predicate: the conjunction of the
independently-optional criteria, with the free-text group ORed over
title, description, address and city, and the text criteria matched as
case-insensitive unanchored regular expressions. -/
def searchPred (sp : PropertySearch) (p : Property) : Bool :=
  (match sp.query with
   | none => true
   | some q =>
     mongoRegexMatch q p.title || mongoRegexMatch q p.description ||
     mongoRegexMatch q p.address || mongoRegexMatch q p.city) &&
  (match sp.property_type with | none => true | some t => p.property_type == t) &&
  (match sp.status with | none => true | some t => p.status == t) &&
  rangeHolds sp.min_price sp.max_price p.price &&
  rangeHolds sp.min_bedrooms sp.max_bedrooms p.bedrooms &&
  rangeHolds sp.min_bathrooms sp.max_bathrooms p.bathrooms &&
  rangeHolds sp.min_area sp.max_area p.area_sqft &&
  (match sp.city with | none => true | some c => mongoRegexMatch c p.city) &&
  (match sp.state with | none => true | some st => mongoRegexMatch st p.state) &&
  (match sp.is_featured with | none => true | some b => p.is_featured == b)

/-! Composition of `Depends(get_current_user)` with the authenticated
handlers, and the `is_active` flip used for the noninterference claim. -/

/-- Endpoint `GET /auth/me`: resolve the token and echo the user. -/
def auth_me (tok : TokenRec) (now : Int) (s : DBState) : Except HError User :=
  get_current_user tok now s

/-- Endpoint `PUT /properties/{id}` including authentication. -/
def authUpdateProperty (tok : TokenRec) (now : Int) (pid : String)
    (upd : PropertyUpdate) (s : DBState) : Except HError Property × DBState :=
  match get_current_user tok now s with
  | .error e => (.error e, s)
  | .ok u => update_property pid upd u now s

/-- Endpoint `DELETE /properties/{id}` including authentication. -/
def authDeleteProperty (tok : TokenRec) (now : Int) (pid : String)
    (s : DBState) : Except HError String × DBState :=
  match get_current_user tok now s with
  | .error e => (.error e, s)
  | .ok u => delete_property pid u s

/-- Endpoint `POST /favorites/{id}` including authentication. -/
def authAddFavorite (tok : TokenRec) (now : Int) (pid newId : String)
    (s : DBState) : Except HError String × DBState :=
  match get_current_user tok now s with
  | .error e => (.error e, s)
  | .ok u => add_to_favorites pid u newId now s

/-- Endpoint `DELETE /favorites/{id}` including authentication. -/
def authRemoveFavorite (tok : TokenRec) (now : Int) (pid : String)
    (s : DBState) : Except HError String × DBState :=
  match get_current_user tok now s with
  | .error e => (.error e, s)
  | .ok u => remove_from_favorites pid u s

/-- Endpoint `GET /inquiries` including authentication. -/
def authGetInquiries (tok : TokenRec) (now : Int) (s : DBState) :
    Except HError (List Inquiry) :=
  match get_current_user tok now s with
  | .error e => .error e
  | .ok u => .ok (get_inquiries u s)

/-- Set the `is_active` flag of the user with id `uid` (all other state
identical): the hypothetical variation the noninterference claim
compares against. -/
def setActive (uid : String) (b : Bool) (s : DBState) : DBState :=
  let us := s.users.map fun su =>
    if su.user.id == uid then { su with user := { su.user with is_active := b } } else su
  { s with users := us }

/-! Concrete fixtures used to instantiate the theorems. -/

/-- Sample seller: owner of the sample property. -/
def uOwner : User :=
  { id := "u-owner", email := "owner@ex.com", full_name := "O", role := .seller,
    created_at := 0, updated_at := 0 }

/-- Sample buyer. -/
def uBuyer : User :=
  { id := "u-buyer", email := "buyer@ex.com", full_name := "B", role := .buyer,
    created_at := 0, updated_at := 0 }

/-- Sample agent. -/
def uAgent : User :=
  { id := "u-agent", email := "agent@ex.com", full_name := "A", role := .agent,
    created_at := 0, updated_at := 0 }

/-- Sample property, owned by `uOwner`; its title `"aa"` is matched by the
regex pattern `"a+"` although `"a+"` is not a substring of any of its
text fields. -/
def pAA : Property :=
  { id := "p1", title := "aa", description := "d", property_type := .house,
    status := .for_sale, price := 100, bedrooms := 2, bathrooms := 1,
    area_sqft := 50, address := "addr", city := "ct", state := "st",
    zip_code := "z", owner_id := "u-owner", views := 7,
    created_at := 0, updated_at := 0 }

/-- Sample favorite linking `uBuyer` to `pAA`. -/
def favB : Favorite :=
  { id := "f1", user_id := "u-buyer", property_id := "p1", created_at := 0 }

/-- Sample inquiry by `uBuyer` on `pAA`. -/
def inqB : Inquiry :=
  { id := "i1", property_id := "p1", user_id := "u-buyer",
    message := "m", contact_email := "buyer@ex.com", created_at := 0 }

/-- Base sample store. -/
def s0 : DBState :=
  { users := [{ user := uOwner, hashed_password := "h1" },
              { user := uBuyer, hashed_password := "h2" },
              { user := uAgent, hashed_password := "h3" }],
    properties := [pAA], favorites := [favB], inquiries := [inqB] }

/-- Token for `uOwner`, valid at instant 0. -/
def tokOwner : TokenRec := { sub := "u-owner", exp := 30 }

/-- Token for `uBuyer`, valid at instant 0. -/
def tokBuyer : TokenRec := { sub := "u-buyer", exp := 30 }

/-- Search criteria with the regex-special free-text query `"a+"`. -/
def spAplus : PropertySearch := { query := some "a+" }

/-- Search criteria: price range plus free-text query, as in the spec's
example. -/
def spVilla : PropertySearch := { query := some "villa", property_type := some .villa }

/-- Update payload touching only the price. -/
def updPrice : PropertyUpdate := { price := some 250 }

/-- Update payload with every field absent. -/
def emptyUpdate : PropertyUpdate := {}

/-- Store holding 1001 inquiries by `uBuyer`: more matches than the
`to_list(1000)` cap of `get_inquiries`. -/
def s1001 : DBState := { s0 with inquiries := List.replicate 1001 inqB }

/-- Number of stored favorites for one (user, property) pair. -/
def pairCount (uid pid : String) (l : List Favorite) : Nat :=
  (l.filter fun f => f.user_id == uid && f.property_id == pid).length

/-- Regular expression accepting exactly the literal string `cs`: the
shape the parser produces on a pattern with no regex metacharacters. -/
def litRE (cs : List Char) : RE :=
  finishSeq ((cs.map RegularExpression.char).reverse)

/-- The word `s` splits into consecutive blocks accepted by the
expressions of `l`, in order. -/
def SeqMatches : List RE → List Char → Prop
  | [], s => s = []
  | r :: rs, s => ∃ t u, s = t ++ u ∧ r.rmatch t = true ∧ SeqMatches rs u

/-- Pointwise `is_active` rewrite applied by `setActive` to one stored
user. -/
def flipUser (uid : String) (b : Bool) (u : User) : User :=
  if u.id == uid then { u with is_active := b } else u

/-! Generic lemmas about the store primitives. -/

theorem find?_eq_some_split {p : α → Bool} {l : List α} {a : α}
    (h : l.find? p = some a) :
    ∃ l₁ l₂, l = l₁ ++ a :: l₂ ∧ (∀ x ∈ l₁, p x = false) ∧ p a = true := by
  induction l with
  | nil => simp at h
  | cons x xs ih =>
    by_cases hx : p x
    · rw [List.find?_cons_of_pos _ hx] at h
      cases h
      exact ⟨[], xs, rfl, by simp, hx⟩
    · rw [List.find?_cons_of_neg _ hx] at h
      obtain ⟨l₁, l₂, hl, hall, hpa⟩ := ih h
      exact ⟨x :: l₁, l₂, by simp [hl], by
        intro y hy
        rcases List.mem_cons.mp hy with rfl | hy
        · exact Bool.of_not_eq_true hx
        · exact hall y hy, hpa⟩

theorem updateFirst_append_cons {p : α → Bool} {f : α → α} {l₁ l₂ : List α} {a : α}
    (h₁ : ∀ x ∈ l₁, p x = false) (h₂ : p a = true) :
    updateFirst p f (l₁ ++ a :: l₂) = l₁ ++ f a :: l₂ := by
  induction l₁ with
  | nil => simp [updateFirst, h₂]
  | cons x xs ih =>
    have hx := h₁ x (by simp)
    simp only [List.cons_append, updateFirst, hx]
    simp [ih fun y hy => h₁ y (List.mem_cons_of_mem _ hy)]

theorem removeFirst_append_cons {p : α → Bool} {l₁ l₂ : List α} {a : α}
    (h₁ : ∀ x ∈ l₁, p x = false) (h₂ : p a = true) :
    removeFirst p (l₁ ++ a :: l₂) = l₁ ++ l₂ := by
  induction l₁ with
  | nil => simp [removeFirst, h₂]
  | cons x xs ih =>
    have hx := h₁ x (by simp)
    simp only [List.cons_append, removeFirst, hx]
    simp [ih fun y hy => h₁ y (List.mem_cons_of_mem _ hy)]

theorem find?_append_cons {p : α → Bool} {l₁ l₂ : List α} {b : α}
    (h₁ : ∀ x ∈ l₁, p x = false) (h₂ : p b = true) :
    (l₁ ++ b :: l₂).find? p = some b := by
  induction l₁ with
  | nil => simp [List.find?_cons_of_pos _ h₂]
  | cons x xs ih =>
    have hx := h₁ x (by simp)
    simp only [List.cons_append]
    rw [List.find?_cons_of_neg _ (by simp [hx])]
    exact ih fun y hy => h₁ y (List.mem_cons_of_mem _ hy)

theorem length_filter_removeFirst {p : α → Bool} {l : List α}
    (h : (l.find? p).isSome) :
    ((removeFirst p l).filter p).length + 1 = (l.filter p).length := by
  induction l with
  | nil => simp at h
  | cons x xs ih =>
    by_cases hx : p x
    · simp [removeFirst, hx, List.filter_cons]
    · have hx' : p x = false := Bool.of_not_eq_true hx
      rw [List.find?_cons_of_neg _ hx] at h
      simp only [removeFirst, hx', Bool.false_eq_true, if_false, List.filter_cons, hx']
      simpa using ih h

/-! Claim C6: token expiry. -/

/-- Claim C6, counterexample: `create_access_token` does not always encode
a 30-minute expiry — with `expires_delta` of 5 minutes the token expires
5 minutes after issuance, and with no `expires_delta` it expires after
the hardcoded 15-minute default, not 30. -/
theorem token_expiry_claim_false :
    (create_access_token "u" (some 5) 0).exp = 5 ∧
    (create_access_token "u" none 0).exp = 15 ∧
    (5 : Int) ≠ 30 ∧ (15 : Int) ≠ 30 := by
  decide

/-- Claim C6, amended: `create_access_token` honours a nonzero
`expires_delta` and falls back to a hardcoded 15-minute default when the
argument is absent (or a zero delta, which Python treats as falsy); both
`register` and `login` pass `ACCESS_TOKEN_EXPIRE_MINUTES = 30`, so every
token the endpoints issue expires 30 minutes after issuance. -/
theorem token_expiry_semantics :
    (∀ sub now d, d ≠ 0 → (create_access_token sub (some d) now).exp = now + d) ∧
    (∀ sub now, (create_access_token sub none now).exp = now + 15) ∧
    (∀ sub now, (create_access_token sub (some 0) now).exp = now + 15) ∧
    (∀ e pw fn ph r hf nid now s tok s₂,
       register e pw fn ph r hf nid now s = (.ok tok, s₂) →
       tok.access_token.exp = now + 30) ∧
    (∀ e pw vf now s tok s₂,
       login e pw vf now s = (.ok tok, s₂) → tok.access_token.exp = now + 30) := by
  refine ⟨fun sub now d hd => by simp [create_access_token, hd], ?_, ?_, ?_, ?_⟩
  · intro sub now
    simp [create_access_token]
  · intro sub now
    simp [create_access_token]
  · intro e pw fn ph r hf nid now s tok s₂ h
    unfold register at h
    cases hs : s.users.find? (fun su => su.user.email == e) with
    | some su => rw [hs] at h; simp at h
    | none =>
      rw [hs] at h
      simp only [Prod.mk.injEq, Except.ok.injEq] at h
      rw [← h.1]
      simp [create_access_token, ACCESS_TOKEN_EXPIRE_MINUTES]
  · intro e pw vf now s tok s₂ h
    unfold login at h
    cases hs : s.users.find? (fun su => su.user.email == e) with
    | none => rw [hs] at h; simp at h
    | some su =>
      rw [hs] at h
      by_cases hv : vf pw su.hashed_password
      · simp only [hv, if_true, Prod.mk.injEq, Except.ok.injEq] at h
        rw [← h.1]
        simp [create_access_token, ACCESS_TOKEN_EXPIRE_MINUTES]
      · simp [hv] at h

/-- Claim C6, witness for `token_expiry_semantics`. -/
theorem token_expiry_witness :
    (create_access_token "u" (some 30) 0).exp = 0 + 30 ∧
    (create_access_token "u" none 7).exp = 7 + 15 :=
  ⟨token_expiry_semantics.1 "u" 0 30 (by decide), token_expiry_semantics.2.1 "u" 7⟩

/-! Claim C7: duplicate-email check at registration is a case-sensitive
string match. -/

/-- Claim C7: registration fails with status 400 and leaves the store
unchanged exactly when some stored user carries the identical email
string; any email differing from every stored one — including one
differing only in letter case — registers successfully and appends
exactly one user document. -/
theorem register_email_case_sensitive (e pw fn : String) (ph : Option String)
    (r : UserRole) (hf : String → String) (nid : String) (now : Int) (s : DBState) :
    ((∃ su ∈ s.users, su.user.email = e) →
       register e pw fn ph r hf nid now s = (.error ⟨400, "Email already registered"⟩, s)) ∧
    ((∀ su ∈ s.users, su.user.email ≠ e) →
       ∃ tok, register e pw fn ph r hf nid now s =
           (.ok tok, { s with users := s.users ++ [{ user := tok.user, hashed_password := hf pw }] }) ∧
         tok.user.email = e ∧ tok.user.id = nid) := by
  constructor
  · rintro ⟨su, hsu, he⟩
    have hsome : (s.users.find? fun su => su.user.email == e).isSome :=
      List.find?_isSome.mpr ⟨su, hsu, by simp [he]⟩
    obtain ⟨x, hx⟩ := Option.isSome_iff_exists.mp hsome
    unfold register
    rw [hx]
  · intro h
    have hnone : (s.users.find? fun su => su.user.email == e) = none :=
      List.find?_eq_none.mpr fun x hx => by simp [h x hx]
    unfold register
    rw [hnone]
    exact ⟨_, rfl, rfl, rfl⟩

/-- Claim C7, witness for `register_email_case_sensitive`: in the sample
store, re-registering `"owner@ex.com"` fails with 400, while
`"OWNER@ex.com"` — the same address up to case — succeeds. -/
theorem register_email_case_sensitive_witness :
    register "owner@ex.com" "pw" "N" none .buyer (fun x => x) "nid" 0 s0 =
      (.error ⟨400, "Email already registered"⟩, s0) ∧
    ((register "OWNER@ex.com" "pw" "N" none .buyer (fun x => x) "nid" 0 s0).1.isOk = true) := by
  constructor
  · exact (register_email_case_sensitive "owner@ex.com" "pw" "N" none .buyer
      (fun x => x) "nid" 0 s0).1 (by decide)
  · obtain ⟨tok, htok, -, -⟩ := (register_email_case_sensitive "OWNER@ex.com" "pw" "N" none .buyer
      (fun x => x) "nid" 0 s0).2 (by decide)
    rw [htok]
    rfl

/-! Claims C2, C3, C4, C9: property mutation. -/

theorem applyUpdate_id (doc : Property) (upd : PropertyUpdate) (now : Int) :
    (applyUpdate doc upd now).id = doc.id := rfl

/-- Shared shape of a permitted `update_property` call: the store
decomposes around the first document with the requested id, and the call
returns the merged document and stores it in place. -/
theorem update_property_success_eq {pid : String} {u : User} {upd : PropertyUpdate}
    {now : Int} {s : DBState} {doc : Property}
    (hdoc : s.properties.find? (fun p => p.id == pid) = some doc)
    (hauth : doc.owner_id = u.id ∨ u.role = .agent) :
    ∃ l₁ l₂, s.properties = l₁ ++ doc :: l₂ ∧ (∀ x ∈ l₁, (x.id == pid) = false) ∧
      update_property pid upd u now s =
        (.ok (applyUpdate doc upd now),
         { s with properties := l₁ ++ applyUpdate doc upd now :: l₂ }) := by
  obtain ⟨l₁, l₂, hl, hall, hpa⟩ := find?_eq_some_split hdoc
  refine ⟨l₁, l₂, hl, hall, ?_⟩
  have hcond : (doc.owner_id != u.id && u.role != UserRole.agent) = false := by
    rcases hauth with h | h <;> simp [h]
  have hupd : updateFirst (fun p => p.id == pid) (fun p => applyUpdate p upd now) s.properties =
      l₁ ++ applyUpdate doc upd now :: l₂ := by
    rw [hl]; exact updateFirst_append_cons hall hpa
  have hre : (l₁ ++ applyUpdate doc upd now :: l₂).find? (fun p => p.id == pid) =
      some (applyUpdate doc upd now) :=
    find?_append_cons hall (by rw [applyUpdate_id]; exact hpa)
  unfold update_property
  rw [hdoc]
  simp only [hcond, Bool.false_eq_true, if_false, hupd, hre]

/-- Claim C2: for `update_property` and `delete_property`, a missing id
yields 404 before any authorization decision and leaves the store
unchanged; on an existing property the requester is rejected with 403
(store unchanged) exactly when it is neither the stored owner nor an
agent, and otherwise both calls succeed. -/
theorem update_delete_authorization (pid : String) (u : User) (upd : PropertyUpdate)
    (now : Int) (s : DBState) :
    (s.properties.find? (fun p => p.id == pid) = none →
       update_property pid upd u now s = (.error ⟨404, "Property not found"⟩, s) ∧
       delete_property pid u s = (.error ⟨404, "Property not found"⟩, s)) ∧
    (∀ doc, s.properties.find? (fun p => p.id == pid) = some doc →
      (¬(doc.owner_id = u.id ∨ u.role = .agent) →
         update_property pid upd u now s =
           (.error ⟨403, "Not authorized to update this property"⟩, s) ∧
         delete_property pid u s =
           (.error ⟨403, "Not authorized to delete this property"⟩, s)) ∧
      ((doc.owner_id = u.id ∨ u.role = .agent) →
         (update_property pid upd u now s).1 = .ok (applyUpdate doc upd now) ∧
         (delete_property pid u s).1 = .ok "Property deleted successfully")) := by
  constructor
  · intro h
    constructor
    · unfold update_property; rw [h]
    · unfold delete_property; rw [h]
  · intro doc hdoc
    constructor
    · intro hforb
      push_neg at hforb
      have hcond : (doc.owner_id != u.id && u.role != UserRole.agent) = true := by
        simp [hforb.1, hforb.2]
      constructor
      · unfold update_property; rw [hdoc]; simp only [hcond, if_true]
      · unfold delete_property; rw [hdoc]; simp only [hcond, if_true]
    · intro hauth
      constructor
      · obtain ⟨l₁, l₂, -, -, heq⟩ := update_property_success_eq hdoc hauth
        rw [heq]
      · have hcond : (doc.owner_id != u.id && u.role != UserRole.agent) = false := by
          rcases hauth with h | h <;> simp [h]
        unfold delete_property
        rw [hdoc]
        simp only [hcond, Bool.false_eq_true, if_false]

/-- Claim C2, witness for `update_delete_authorization`: the sample buyer
is rejected with 403, the sample agent may delete, a missing id gives
404. -/
theorem update_delete_authorization_witness :
    update_property "p1" updPrice uBuyer 5 s0 =
      (.error ⟨403, "Not authorized to update this property"⟩, s0) ∧
    (delete_property "p1" uAgent s0).1 = .ok "Property deleted successfully" ∧
    update_property "nope" updPrice uBuyer 5 s0 = (.error ⟨404, "Property not found"⟩, s0) := by
  refine ⟨?_, ?_, ?_⟩
  · exact (((update_delete_authorization "p1" uBuyer updPrice 5 s0).2 pAA (by decide)).1
      (by decide)).1
  · exact (((update_delete_authorization "p1" uAgent updPrice 5 s0).2 pAA (by decide)).2
      (by decide)).2
  · exact ((update_delete_authorization "nope" uBuyer updPrice 5 s0).1 (by decide)).1

/-- Claim C3: a successful fetch-by-id returns the stored document with
`views` bumped by exactly 1 and persists exactly that bump — the other
fields of the document, the other documents and the other collections
are unchanged; a missing id gives 404 and leaves the store unchanged. -/
theorem get_property_view_increment (pid : String) (s : DBState) :
    (s.properties.find? (fun p => p.id == pid) = none →
       get_property pid s = (.error ⟨404, "Property not found"⟩, s)) ∧
    (∀ doc, s.properties.find? (fun p => p.id == pid) = some doc →
       ∃ l₁ l₂, s.properties = l₁ ++ doc :: l₂ ∧ (∀ x ∈ l₁, (x.id == pid) = false) ∧
         get_property pid s =
           (.ok { doc with views := doc.views + 1 },
            { s with properties := l₁ ++ { doc with views := doc.views + 1 } :: l₂ })) := by
  constructor
  · intro h
    unfold get_property; rw [h]
  · intro doc hdoc
    obtain ⟨l₁, l₂, hl, hall, hpa⟩ := find?_eq_some_split hdoc
    refine ⟨l₁, l₂, hl, hall, ?_⟩
    have hupd : updateFirst (fun p => p.id == pid)
        (fun p => { p with views := p.views + 1 }) s.properties =
        l₁ ++ { doc with views := doc.views + 1 } :: l₂ := by
      rw [hl]; exact updateFirst_append_cons hall hpa
    unfold get_property
    rw [hdoc]
    simp only [hupd]

/-- Claim C3, witness for `get_property_view_increment`: fetching the
sample property returns it with 8 views (stored: 7), and a missing id
gives 404. -/
theorem get_property_view_increment_witness :
    (get_property "p1" s0).1 = .ok { pAA with views := pAA.views + 1 } ∧
    get_property "nope" s0 = (.error ⟨404, "Property not found"⟩, s0) := by
  constructor
  · obtain ⟨l₁, l₂, -, -, heq⟩ :=
      (get_property_view_increment "p1" s0).2 pAA (by decide)
    rw [heq]
  · exact (get_property_view_increment "nope" s0).1 (by decide)

/-- Claim C4: an authorized update stores a document that differs from
the previous one only in the payload fields supplied non-null and in
`updated_at`; `id`, `owner_id`, `views`, `created_at` (and also
`country` and `agent_id`, absent from `PropertyUpdate`) are unchanged by
every update, and no other stored document or collection is touched. -/
theorem update_property_frame (pid : String) (u : User) (upd : PropertyUpdate)
    (now : Int) (s : DBState) (doc : Property)
    (hdoc : s.properties.find? (fun p => p.id == pid) = some doc)
    (hauth : doc.owner_id = u.id ∨ u.role = .agent) :
    (∃ l₁ l₂, s.properties = l₁ ++ doc :: l₂ ∧ (∀ x ∈ l₁, (x.id == pid) = false) ∧
       update_property pid upd u now s =
         (.ok (applyUpdate doc upd now),
          { s with properties := l₁ ++ applyUpdate doc upd now :: l₂ })) ∧
    (applyUpdate doc upd now).id = doc.id ∧
    (applyUpdate doc upd now).owner_id = doc.owner_id ∧
    (applyUpdate doc upd now).views = doc.views ∧
    (applyUpdate doc upd now).created_at = doc.created_at ∧
    (applyUpdate doc upd now).country = doc.country ∧
    (applyUpdate doc upd now).agent_id = doc.agent_id ∧
    (applyUpdate doc upd now).updated_at = now ∧
    (upd.title = none → (applyUpdate doc upd now).title = doc.title) ∧
    (∀ v, upd.title = some v → (applyUpdate doc upd now).title = v) ∧
    (upd.description = none → (applyUpdate doc upd now).description = doc.description) ∧
    (∀ v, upd.description = some v → (applyUpdate doc upd now).description = v) ∧
    (upd.property_type = none → (applyUpdate doc upd now).property_type = doc.property_type) ∧
    (∀ v, upd.property_type = some v → (applyUpdate doc upd now).property_type = v) ∧
    (upd.status = none → (applyUpdate doc upd now).status = doc.status) ∧
    (∀ v, upd.status = some v → (applyUpdate doc upd now).status = v) ∧
    (upd.price = none → (applyUpdate doc upd now).price = doc.price) ∧
    (∀ v, upd.price = some v → (applyUpdate doc upd now).price = v) ∧
    (upd.bedrooms = none → (applyUpdate doc upd now).bedrooms = doc.bedrooms) ∧
    (∀ v, upd.bedrooms = some v → (applyUpdate doc upd now).bedrooms = v) ∧
    (upd.bathrooms = none → (applyUpdate doc upd now).bathrooms = doc.bathrooms) ∧
    (∀ v, upd.bathrooms = some v → (applyUpdate doc upd now).bathrooms = v) ∧
    (upd.area_sqft = none → (applyUpdate doc upd now).area_sqft = doc.area_sqft) ∧
    (∀ v, upd.area_sqft = some v → (applyUpdate doc upd now).area_sqft = v) ∧
    (upd.address = none → (applyUpdate doc upd now).address = doc.address) ∧
    (∀ v, upd.address = some v → (applyUpdate doc upd now).address = v) ∧
    (upd.city = none → (applyUpdate doc upd now).city = doc.city) ∧
    (∀ v, upd.city = some v → (applyUpdate doc upd now).city = v) ∧
    (upd.state = none → (applyUpdate doc upd now).state = doc.state) ∧
    (∀ v, upd.state = some v → (applyUpdate doc upd now).state = v) ∧
    (upd.zip_code = none → (applyUpdate doc upd now).zip_code = doc.zip_code) ∧
    (∀ v, upd.zip_code = some v → (applyUpdate doc upd now).zip_code = v) ∧
    (upd.images = none → (applyUpdate doc upd now).images = doc.images) ∧
    (∀ v, upd.images = some v → (applyUpdate doc upd now).images = v) ∧
    (upd.amenities = none → (applyUpdate doc upd now).amenities = doc.amenities) ∧
    (∀ v, upd.amenities = some v → (applyUpdate doc upd now).amenities = v) ∧
    (upd.is_featured = none → (applyUpdate doc upd now).is_featured = doc.is_featured) ∧
    (∀ v, upd.is_featured = some v → (applyUpdate doc upd now).is_featured = v) ∧
    (upd.latitude = none → (applyUpdate doc upd now).latitude = doc.latitude) ∧
    (∀ v, upd.latitude = some v → (applyUpdate doc upd now).latitude = some v) ∧
    (upd.longitude = none → (applyUpdate doc upd now).longitude = doc.longitude) ∧
    (∀ v, upd.longitude = some v → (applyUpdate doc upd now).longitude = some v) ∧
    (upd.year_built = none → (applyUpdate doc upd now).year_built = doc.year_built) ∧
    (∀ v, upd.year_built = some v → (applyUpdate doc upd now).year_built = some v) ∧
    (upd.parking_spaces = none → (applyUpdate doc upd now).parking_spaces = doc.parking_spaces) ∧
    (∀ v, upd.parking_spaces = some v → (applyUpdate doc upd now).parking_spaces = some v) ∧
    True := by
  refine ⟨update_property_success_eq hdoc hauth, rfl, rfl, rfl, rfl, rfl, rfl, rfl,
    fun h => by simp [applyUpdate, h],
    fun v h => by simp [applyUpdate, h],
    fun h => by simp [applyUpdate, h],
    fun v h => by simp [applyUpdate, h],
    fun h => by simp [applyUpdate, h],
    fun v h => by simp [applyUpdate, h],
    fun h => by simp [applyUpdate, h],
    fun v h => by simp [applyUpdate, h],
    fun h => by simp [applyUpdate, h],
    fun v h => by simp [applyUpdate, h],
    fun h => by simp [applyUpdate, h],
    fun v h => by simp [applyUpdate, h],
    fun h => by simp [applyUpdate, h],
    fun v h => by simp [applyUpdate, h],
    fun h => by simp [applyUpdate, h],
    fun v h => by simp [applyUpdate, h],
    fun h => by simp [applyUpdate, h],
    fun v h => by simp [applyUpdate, h],
    fun h => by simp [applyUpdate, h],
    fun v h => by simp [applyUpdate, h],
    fun h => by simp [applyUpdate, h],
    fun v h => by simp [applyUpdate, h],
    fun h => by simp [applyUpdate, h],
    fun v h => by simp [applyUpdate, h],
    fun h => by simp [applyUpdate, h],
    fun v h => by simp [applyUpdate, h],
    fun h => by simp [applyUpdate, h],
    fun v h => by simp [applyUpdate, h],
    fun h => by simp [applyUpdate, h],
    fun v h => by simp [applyUpdate, h],
    fun h => by simp [applyUpdate, h],
    fun v h => by simp [applyUpdate, h],
    fun h => by simp [applyUpdate, h],
    fun v h => by simp [applyUpdate, h],
    fun h => by simp [applyUpdate, h],
    fun v h => by simp [applyUpdate, h],
    fun h => by simp [applyUpdate, h],
    fun v h => by simp [applyUpdate, h],
    trivial⟩

/-- Claim C4, witness for `update_property_frame`: a price-only update by
the owner keeps id, owner, views and timestamps. -/
theorem update_property_frame_witness :
    (update_property "p1" updPrice uOwner 9 s0).1 = .ok (applyUpdate pAA updPrice 9) ∧
    (applyUpdate pAA updPrice 9).views = pAA.views ∧
    (applyUpdate pAA updPrice 9).owner_id = pAA.owner_id ∧
    (applyUpdate pAA updPrice 9).price = 250 := by
  obtain ⟨⟨l₁, l₂, -, -, heq⟩, -, -, hviews, -, -, -, -, rest⟩ :=
    update_property_frame "p1" uOwner updPrice 9 s0 pAA (by decide) (by decide)
  exact ⟨by rw [heq], hviews, rfl, by decide⟩

/-- Claim C9: an authorized update whose payload is entirely null still
succeeds and rewrites only `updated_at`; and since null payload fields
are dropped from the merge, no optional field (`latitude`, `longitude`,
`year_built`, `parking_spaces` — and `agent_id`, which the payload cannot
even name) is ever reset from a set value back to null by an update. -/
theorem update_null_payload_no_reset (pid : String) (u : User) (now : Int)
    (s : DBState) (doc : Property)
    (hdoc : s.properties.find? (fun p => p.id == pid) = some doc)
    (hauth : doc.owner_id = u.id ∨ u.role = .agent) :
    (update_property pid emptyUpdate u now s).1 = .ok { doc with updated_at := now } ∧
    (∀ upd d m, (d.latitude).isSome → ((applyUpdate d upd m).latitude).isSome) ∧
    (∀ upd d m, (d.longitude).isSome → ((applyUpdate d upd m).longitude).isSome) ∧
    (∀ upd d m, (d.year_built).isSome → ((applyUpdate d upd m).year_built).isSome) ∧
    (∀ upd d m, (d.parking_spaces).isSome → ((applyUpdate d upd m).parking_spaces).isSome) ∧
    (∀ upd d m, (applyUpdate d upd m).agent_id = d.agent_id) := by
  refine ⟨?_, ?_, ?_, ?_, ?_, fun upd d m => rfl⟩
  · obtain ⟨l₁, l₂, -, -, heq⟩ :=
      @update_property_success_eq pid u emptyUpdate now s doc hdoc hauth
    rw [heq]
    rfl
  · intro upd d m h
    cases hv : upd.latitude <;> simp [applyUpdate, hv, h]
  · intro upd d m h
    cases hv : upd.longitude <;> simp [applyUpdate, hv, h]
  · intro upd d m h
    cases hv : upd.year_built <;> simp [applyUpdate, hv, h]
  · intro upd d m h
    cases hv : upd.parking_spaces <;> simp [applyUpdate, hv, h]

/-- Claim C9, witness for `update_null_payload_no_reset`. -/
theorem update_null_payload_no_reset_witness :
    (update_property "p1" emptyUpdate uOwner 9 s0).1 = .ok { pAA with updated_at := 9 } ∧
    (applyUpdate pAA updPrice 9).agent_id = pAA.agent_id := by
  obtain ⟨h1, -, -, -, -, h6⟩ :=
    update_null_payload_no_reset "p1" uOwner 9 s0 pAA (by decide) (by decide)
  exact ⟨h1, h6 updPrice pAA 9⟩


/-! Claim C5: favorites. -/

/-- Claim C5, counterexample: a duplicate favorite is rejected with HTTP
status 400 (`"Property already in favorites"`), not with Conflict 409 as
claimed. -/
theorem favorites_conflict_claim_false :
    (add_to_favorites "p1" uBuyer "f2" 1 s0).1 =
      .error ⟨400, "Property already in favorites"⟩ ∧
    (400 : Nat) ≠ 409 := by
  exact ⟨rfl, by decide⟩

/-- Claim C5, amended: `addFavorite` fails with 404 when the property does
not exist and with status 400 (not 409) when the (user, property)
favorite already exists, in both cases leaving the store unchanged, so a
store with at most one favorite per pair keeps at most one favorite per
pair; `removeFavorite` fails with 404 when no such favorite exists, and
(given at most one favorite per pair) a second removal of the same
favorite always fails with 404. -/
theorem favorites_semantics (pid : String) (u : User) (fid : String) (now : Int)
    (s : DBState) :
    (s.properties.find? (fun p => p.id == pid) = none →
       add_to_favorites pid u fid now s = (.error ⟨404, "Property not found"⟩, s)) ∧
    (∀ doc, s.properties.find? (fun p => p.id == pid) = some doc →
       (∀ f, s.favorites.find? (fun f => f.user_id == u.id && f.property_id == pid) = some f →
          add_to_favorites pid u fid now s =
            (.error ⟨400, "Property already in favorites"⟩, s)) ∧
       (s.favorites.find? (fun f => f.user_id == u.id && f.property_id == pid) = none →
          add_to_favorites pid u fid now s =
            (.ok "Property added to favorites",
             { s with favorites := s.favorites ++
                [{ id := fid, user_id := u.id, property_id := pid, created_at := now }] }))) ∧
    (∀ uid2 pid2, pairCount uid2 pid2 s.favorites ≤ 1 →
       pairCount uid2 pid2 (add_to_favorites pid u fid now s).2.favorites ≤ 1) ∧
    (s.favorites.find? (fun f => f.user_id == u.id && f.property_id == pid) = none →
       remove_from_favorites pid u s = (.error ⟨404, "Favorite not found"⟩, s)) ∧
    (pairCount u.id pid s.favorites ≤ 1 →
       (remove_from_favorites pid u (remove_from_favorites pid u s).2).1 =
         .error ⟨404, "Favorite not found"⟩) := by
  refine ⟨?_, ?_, ?_, ?_, ?_⟩
  · intro h
    unfold add_to_favorites; rw [h]
  · intro doc hdoc
    constructor
    · intro f hf
      unfold add_to_favorites; rw [hdoc, hf]
    · intro hn
      unfold add_to_favorites; rw [hdoc, hn]
  · intro uid2 pid2 hle
    cases hp : s.properties.find? (fun p => p.id == pid) with
    | none => simpa [add_to_favorites, hp] using hle
    | some doc =>
      cases hf : s.favorites.find? (fun f => f.user_id == u.id && f.property_id == pid) with
      | some f => simpa [add_to_favorites, hp, hf] using hle
      | none =>
        have hstate : (add_to_favorites pid u fid now s).2.favorites =
            s.favorites ++ [{ id := fid, user_id := u.id, property_id := pid, created_at := now }] := by
          simp [add_to_favorites, hp, hf]
        rw [hstate]
        by_cases hq : (u.id == uid2 && pid == pid2) = true
        · obtain ⟨hq1, hq2⟩ := Bool.and_eq_true_iff.mp hq
          have e1 : u.id = uid2 := eq_of_beq hq1
          have e2 : pid = pid2 := eq_of_beq hq2
          have h0 : pairCount uid2 pid2 s.favorites = 0 := by
            have hall := List.find?_eq_none.mp hf
            rw [← e1, ← e2]
            unfold pairCount
            rw [List.length_eq_zero, List.filter_eq_nil_iff]
            intro f hfmem
            exact hall f hfmem
          unfold pairCount at h0 ⊢
          rw [List.filter_append, List.length_append, h0]
          simp [List.filter_cons, hq]
        · unfold pairCount at hle ⊢
          rw [List.filter_append, List.length_append]
          have : List.filter (fun f => f.user_id == uid2 && f.property_id == pid2)
              [({ id := fid, user_id := u.id, property_id := pid, created_at := now } : Favorite)] = [] := by
            simp only [List.filter_cons, List.filter_nil]
            simpa using hq
          rw [this]
          simpa using hle
  · intro h
    unfold remove_from_favorites; rw [h]
  · intro hle
    cases hf : s.favorites.find? (fun f => f.user_id == u.id && f.property_id == pid) with
    | none =>
      simp [remove_from_favorites, hf]
    | some f =>
      have hs : (s.favorites.find? fun f => f.user_id == u.id && f.property_id == pid).isSome := by
        rw [hf]; rfl
      have hcnt := length_filter_removeFirst hs
      unfold pairCount at hle
      have h0 : ((removeFirst (fun f => f.user_id == u.id && f.property_id == pid) s.favorites).filter
          (fun f => f.user_id == u.id && f.property_id == pid)).length = 0 := by omega
      have hnil := List.length_eq_zero.mp h0
      have hnone : (removeFirst (fun f => f.user_id == u.id && f.property_id == pid)
          s.favorites).find? (fun f => f.user_id == u.id && f.property_id == pid) = none :=
        List.find?_eq_none.mpr fun x hx => by
          have := List.filter_eq_nil_iff.mp hnil x hx
          simpa using this
      simp [remove_from_favorites, hf, hnone]

/-- Claim C5, witness for `favorites_semantics`: favoriting a missing
property 404s; removing a favorite that was never added 404s; removing
the sample favorite twice 404s the second time. -/
theorem favorites_semantics_witness :
    add_to_favorites "p9" uBuyer "f9" 3 s0 = (.error ⟨404, "Property not found"⟩, s0) ∧
    remove_from_favorites "p1" uOwner s0 = (.error ⟨404, "Favorite not found"⟩, s0) ∧
    (remove_from_favorites "p1" uBuyer (remove_from_favorites "p1" uBuyer s0).2).1 =
      .error ⟨404, "Favorite not found"⟩ := by
  refine ⟨?_, ?_, ?_⟩
  · exact (favorites_semantics "p9" uBuyer "f9" 3 s0).1 (by decide)
  · exact (favorites_semantics "p1" uOwner "x" 0 s0).2.2.2.1 (by decide)
  · exact (favorites_semantics "p1" uBuyer "x" 0 s0).2.2.2.2 (by decide)

/-! Claim C8: inquiry visibility. -/

/-- Claim C8, counterexample: with 1001 stored inquiries authored by the
sample buyer, `get_inquiries` returns only 1000 of them — the
`to_list(1000)` cap makes "exactly the inquiries with user_id equal to
the caller's id" false on large stores. -/
theorem inquiry_visibility_claim_false :
    (get_inquiries uBuyer s1001).length = 1000 ∧
    (s1001.inquiries.filter fun i => i.user_id == uBuyer.id).length = 1001 := by
  have hin : ((fun (i : Inquiry) => i.user_id == uBuyer.id) inqB) = true := by decide
  have hrole : (uBuyer.role == UserRole.buyer) = true := rfl
  have hrepl : s1001.inquiries = List.replicate 1001 inqB := rfl
  have hfil : (List.replicate 1001 inqB).filter (fun i => i.user_id == uBuyer.id) =
      List.replicate 1001 inqB := List.filter_replicate_of_pos hin
  constructor
  · have h1 : get_inquiries uBuyer s1001 =
        (s1001.inquiries.filter fun i => i.user_id == uBuyer.id).take 1000 := by
      simp [get_inquiries, hrole]
    rw [h1, hrepl, hfil, List.length_take, List.length_replicate]
    omega
  · rw [hrepl, hfil, List.length_replicate]

/-- Claim C8, amended: the visibility scoping is as claimed but capped at
the first 1000 matches (and, for non-buyers, at the caller's first 1000
owned properties): a buyer receives the first 1000 inquiries with their
user_id — exactly the matching set whenever it has at most 1000 members —
and every inquiry shown to a non-buyer (seller or agent) is on a property
the caller owns, the uncapped characterization again holding when the
caps do not bind. -/
theorem inquiry_visibility_scope (u : User) (s : DBState) :
    (u.role = .buyer →
       get_inquiries u s = (s.inquiries.filter fun i => i.user_id == u.id).take 1000 ∧
       ((s.inquiries.filter fun i => i.user_id == u.id).length ≤ 1000 →
          get_inquiries u s = s.inquiries.filter fun i => i.user_id == u.id) ∧
       (∀ i ∈ get_inquiries u s, i.user_id = u.id)) ∧
    (u.role ≠ .buyer →
       (∀ i ∈ get_inquiries u s, ∃ p ∈ s.properties, p.id = i.property_id ∧ p.owner_id = u.id) ∧
       ((s.properties.filter fun p => p.owner_id == u.id).length ≤ 1000 →
        (s.inquiries.filter fun i =>
           (((s.properties.filter fun p => p.owner_id == u.id).map fun p => p.id).contains
             i.property_id)).length ≤ 1000 →
        get_inquiries u s = s.inquiries.filter fun i =>
           (((s.properties.filter fun p => p.owner_id == u.id).map fun p => p.id).contains
             i.property_id))) := by
  constructor
  · intro hr
    have h1 : get_inquiries u s = (s.inquiries.filter fun i => i.user_id == u.id).take 1000 := by
      simp [get_inquiries, hr]
    refine ⟨h1, ?_, ?_⟩
    · intro hlen
      rw [h1]
      exact List.take_of_length_le hlen
    · intro i hi
      rw [h1] at hi
      have := List.mem_filter.mp (List.mem_of_mem_take hi)
      exact eq_of_beq this.2
  · intro hr
    have hb : (u.role == UserRole.buyer) = false := beq_eq_false_iff_ne.mpr hr
    have h1 : get_inquiries u s = (s.inquiries.filter fun i =>
        ((((s.properties.filter fun p => p.owner_id == u.id).take 1000).map fun p => p.id).contains
          i.property_id)).take 1000 := by
      simp [get_inquiries, hb]
    constructor
    · intro i hi
      rw [h1] at hi
      have hpred := (List.mem_filter.mp (List.mem_of_mem_take hi)).2
      obtain ⟨x, hx, hbeq⟩ := List.contains_iff_exists_mem_beq.mp hpred
      obtain ⟨p, hp, hpid⟩ := List.mem_map.mp hx
      refine ⟨p, ?_, ?_, ?_⟩
      · have := List.mem_of_mem_take hp
        exact (List.mem_filter.mp this).1
      · rw [hpid]; exact (eq_of_beq hbeq).symm
      · exact eq_of_beq (List.mem_filter.mp (List.mem_of_mem_take hp)).2
    · intro hp hlen
      rw [h1, List.take_of_length_le hp, List.take_of_length_le hlen]

/-- Claim C8, witness for `inquiry_visibility_scope`: with the small
sample store the buyer sees exactly their inquiry and the owner (a
seller) sees exactly the inquiry on their property. -/
theorem inquiry_visibility_scope_witness :
    get_inquiries uBuyer s0 = [inqB] ∧ get_inquiries uOwner s0 = [inqB] := by
  constructor
  · have h := (((inquiry_visibility_scope uBuyer s0).1 (by decide)).2.1 (by decide))
    rw [h]; decide
  · have h := ((inquiry_visibility_scope uOwner s0).2 (by decide)).2 (by decide) (by decide)
    rw [h]; decide


/-! Claim C10: `is_active` is never consulted. -/

theorem flipUser_id (uid : String) (b : Bool) (u : User) :
    (flipUser uid b u).id = u.id := by
  unfold flipUser; split <;> rfl

theorem flipUser_role (uid : String) (b : Bool) (u : User) :
    (flipUser uid b u).role = u.role := by
  unfold flipUser; split <;> rfl

/-- Token validation on the flipped store resolves to the flipped user:
authentication succeeds or fails identically, and the resolved record
differs at most in the `is_active` field. -/
theorem get_current_user_setActive (tok : TokenRec) (now : Int) (uid : String)
    (b : Bool) (s : DBState) :
    get_current_user tok now (setActive uid b s) =
      (get_current_user tok now s).map (flipUser uid b) := by
  unfold get_current_user setActive
  by_cases hexp : tok.exp < now
  · simp [hexp, Except.map]
  · simp only [hexp, if_false]
    rw [List.find?_map]
    have hcomp : ((fun su : StoredUser => su.user.id == tok.sub) ∘
        (fun su : StoredUser =>
          if su.user.id == uid then { su with user := { su.user with is_active := b } } else su)) =
        fun su : StoredUser => su.user.id == tok.sub := by
      funext su
      by_cases h : su.user.id = uid <;> simp [Function.comp, h]
    rw [hcomp]
    cases h : s.users.find? (fun su => su.user.id == tok.sub) with
    | none => rfl
    | some su =>
      simp only [Option.map_some, Except.map]
      unfold flipUser
      by_cases h2 : su.user.id = uid <;> simp [h2]

theorem update_property_setActive (pid : String) (upd : PropertyUpdate) (u : User)
    (now : Int) (uid : String) (b : Bool) (s : DBState) :
    update_property pid upd (flipUser uid b u) now (setActive uid b s) =
      ((update_property pid upd u now s).1,
       setActive uid b (update_property pid upd u now s).2) := by
  unfold update_property
  have hprops : (setActive uid b s).properties = s.properties := rfl
  rw [hprops, flipUser_id, flipUser_role]
  cases hdoc : s.properties.find? (fun p => p.id == pid) with
  | none => rfl
  | some doc =>
    by_cases hc : (doc.owner_id != u.id && u.role != UserRole.agent) = true
    · simp only [hc, if_true]
    · simp only [Bool.not_eq_true] at hc
      simp only [hc, Bool.false_eq_true, if_false]
      cases hre : (updateFirst (fun p => p.id == pid) (fun p => applyUpdate p upd now)
          s.properties).find? (fun p => p.id == pid) with
      | none => rfl
      | some d => rfl

theorem delete_property_setActive (pid : String) (u : User) (uid : String)
    (b : Bool) (s : DBState) :
    delete_property pid (flipUser uid b u) (setActive uid b s) =
      ((delete_property pid u s).1, setActive uid b (delete_property pid u s).2) := by
  unfold delete_property
  have hprops : (setActive uid b s).properties = s.properties := rfl
  rw [hprops, flipUser_id, flipUser_role]
  cases hdoc : s.properties.find? (fun p => p.id == pid) with
  | none => rfl
  | some doc =>
    by_cases hc : (doc.owner_id != u.id && u.role != UserRole.agent) = true
    · simp only [hc, if_true]
    · simp only [Bool.not_eq_true] at hc
      simp only [hc, Bool.false_eq_true, if_false]
      rfl

theorem add_to_favorites_setActive (pid : String) (u : User) (fid : String)
    (now : Int) (uid : String) (b : Bool) (s : DBState) :
    add_to_favorites pid (flipUser uid b u) fid now (setActive uid b s) =
      ((add_to_favorites pid u fid now s).1,
       setActive uid b (add_to_favorites pid u fid now s).2) := by
  unfold add_to_favorites
  have hprops : (setActive uid b s).properties = s.properties := rfl
  have hfavs : (setActive uid b s).favorites = s.favorites := rfl
  rw [hprops, hfavs, flipUser_id]
  cases hdoc : s.properties.find? (fun p => p.id == pid) with
  | none => rfl
  | some doc =>
    cases hf : s.favorites.find? (fun f => f.user_id == u.id && f.property_id == pid) with
    | some f => rfl
    | none => rfl

theorem remove_from_favorites_setActive (pid : String) (u : User) (uid : String)
    (b : Bool) (s : DBState) :
    remove_from_favorites pid (flipUser uid b u) (setActive uid b s) =
      ((remove_from_favorites pid u s).1,
       setActive uid b (remove_from_favorites pid u s).2) := by
  unfold remove_from_favorites
  have hfavs : (setActive uid b s).favorites = s.favorites := rfl
  rw [hfavs, flipUser_id]
  cases hf : s.favorites.find? (fun f => f.user_id == u.id && f.property_id == pid) with
  | none => rfl
  | some f => rfl

theorem get_inquiries_setActive (u : User) (uid : String) (b : Bool) (s : DBState) :
    get_inquiries (flipUser uid b u) (setActive uid b s) = get_inquiries u s := by
  unfold get_inquiries
  rw [flipUser_role]
  simp only [flipUser_id]
  rfl

/-- Claim C10, counterexample: `/auth/me` echoes the resolved user record,
so two runs that differ only in the stored `is_active` value of the
caller return different results — the claim "every authenticated
operation behaves identically" fails at `GET /auth/me`. -/
theorem is_active_claim_false :
    auth_me tokBuyer 0 (setActive "u-buyer" false s0) =
      .ok { uBuyer with is_active := false } ∧
    auth_me tokBuyer 0 s0 = .ok uBuyer ∧
    ({ uBuyer with is_active := false } : User) ≠ uBuyer := by
  exact ⟨rfl, rfl, by decide⟩

/-- Claim C10, amended: no operation branches on `is_active` — token
validation succeeds or fails identically, and the update, delete,
add-favorite, remove-favorite and list-inquiries endpoints return
identical results and identically-transformed stores whether any user's
`is_active` flag is true or false; only the user object echoed by
`/auth/me` differs, and exactly in that flag. -/
theorem is_active_noninterference (uid : String) (b : Bool) (tok : TokenRec)
    (now : Int) (s : DBState) :
    (∀ pid upd,
       (authUpdateProperty tok now pid upd (setActive uid b s)).1 =
         (authUpdateProperty tok now pid upd s).1 ∧
       (authUpdateProperty tok now pid upd (setActive uid b s)).2 =
         setActive uid b (authUpdateProperty tok now pid upd s).2) ∧
    (∀ pid,
       (authDeleteProperty tok now pid (setActive uid b s)).1 =
         (authDeleteProperty tok now pid s).1 ∧
       (authDeleteProperty tok now pid (setActive uid b s)).2 =
         setActive uid b (authDeleteProperty tok now pid s).2) ∧
    (∀ pid fid,
       (authAddFavorite tok now pid fid (setActive uid b s)).1 =
         (authAddFavorite tok now pid fid s).1 ∧
       (authAddFavorite tok now pid fid (setActive uid b s)).2 =
         setActive uid b (authAddFavorite tok now pid fid s).2) ∧
    (∀ pid,
       (authRemoveFavorite tok now pid (setActive uid b s)).1 =
         (authRemoveFavorite tok now pid s).1 ∧
       (authRemoveFavorite tok now pid (setActive uid b s)).2 =
         setActive uid b (authRemoveFavorite tok now pid s).2) ∧
    (authGetInquiries tok now (setActive uid b s) = authGetInquiries tok now s) ∧
    ((auth_me tok now (setActive uid b s)).isOk = (auth_me tok now s).isOk) := by
  have hsa := get_current_user_setActive tok now uid b s
  refine ⟨?_, ?_, ?_, ?_, ?_, ?_⟩
  · intro pid upd
    unfold authUpdateProperty
    rw [hsa]
    cases hu : get_current_user tok now s with
    | error e => simp [Except.map]
    | ok u => simp [Except.map, update_property_setActive]
  · intro pid
    unfold authDeleteProperty
    rw [hsa]
    cases hu : get_current_user tok now s with
    | error e => simp [Except.map]
    | ok u => simp [Except.map, delete_property_setActive]
  · intro pid fid
    unfold authAddFavorite
    rw [hsa]
    cases hu : get_current_user tok now s with
    | error e => simp [Except.map]
    | ok u => simp [Except.map, add_to_favorites_setActive]
  · intro pid
    unfold authRemoveFavorite
    rw [hsa]
    cases hu : get_current_user tok now s with
    | error e => simp [Except.map]
    | ok u => simp [Except.map, remove_from_favorites_setActive]
  · unfold authGetInquiries
    rw [hsa]
    cases hu : get_current_user tok now s with
    | error e => simp [Except.map]
    | ok u => simp [Except.map, get_inquiries_setActive]
  · unfold auth_me
    rw [hsa]
    cases hu : get_current_user tok now s with
    | error e => simp [Except.map]
    | ok u => rfl

/-- Claim C10, witness for `is_active_noninterference`. -/
theorem is_active_noninterference_witness :
    (authUpdateProperty tokOwner 0 "p1" updPrice (setActive "u-owner" false s0)).1 =
      (authUpdateProperty tokOwner 0 "p1" updPrice s0).1 ∧
    authGetInquiries tokBuyer 0 (setActive "u-buyer" false s0) =
      authGetInquiries tokBuyer 0 s0 :=
  ⟨((is_active_noninterference "u-owner" false tokOwner 0 s0).1 "p1" updPrice).1,
   (is_active_noninterference "u-buyer" false tokBuyer 0 s0).2.2.2.2.1⟩


/-! Claim C1: search semantics.  First the regular-expression side: the
empty pattern matches everything, and a metacharacter-free pattern
matches exactly as case-insensitive substring search. -/

theorem rsearch_one (s : List Char) : rsearch (1 : RE) s = true := by
  have hpre : ∀ t : List Char, hasPrefixMatch (1 : RE) t = true := by
    intro t
    unfold hasPrefixMatch
    rw [List.any_eq_true]
    exact ⟨0, List.mem_range.mpr (Nat.succ_pos _), (RegularExpression.one_rmatch_iff _).mpr rfl⟩
  cases s with
  | nil => simp [rsearch, hpre]
  | cons c t => simp [rsearch, hpre]

theorem mongoRegexMatch_empty (t : String) : mongoRegexMatch "" t = true :=
  rsearch_one _

theorem tokOf_plain (c : Char) (h : plainChar c = true) : tokOf c = .lit c.toLower := by
  have hx : (c == '(' || c == ')' || c == '|' || c == '*' || c == '+' || c == '?' ||
      c == '\\' || unsupportedChar c) = false := by
    simpa [plainChar] using h
  simp only [Bool.or_eq_false_iff] at hx
  obtain ⟨⟨⟨⟨⟨⟨⟨h1, h2⟩, h3⟩, h4⟩, h5⟩, h6⟩, h7⟩, h8⟩ := hx
  simp [tokOf, h1, h2, h3, h4, h5, h6, h8]

theorem plainChar_not_backslash (c : Char) (h : plainChar c = true) : (c == '\\') = false := by
  have hx : (c == '(' || c == ')' || c == '|' || c == '*' || c == '+' || c == '?' ||
      c == '\\' || unsupportedChar c) = false := by
    simpa [plainChar] using h
  simp only [Bool.or_eq_false_iff] at hx
  exact hx.1.2

theorem lexPat_plain (cs : List Char) (h : cs.all plainChar = true) :
    lexPat cs false = some (cs.map fun c => PTok.lit c.toLower) := by
  induction cs with
  | nil => rfl
  | cons c rest ih =>
    rw [List.all_cons] at h
    obtain ⟨hpc, hrest⟩ := Bool.and_eq_true_iff.mp h
    have h7 := plainChar_not_backslash c hpc
    simp [lexPat, h7, ih hrest, tokOf_plain c hpc]

theorem parseToks_lits (ls : List Char) : ∀ (ctx : PCtx) (stk : List PCtx),
    parseToks (ls.map PTok.lit) ctx stk =
      parseToks [] { ctx with seq := (ls.map RegularExpression.char).reverse ++ ctx.seq } stk := by
  induction ls with
  | nil => intro ctx stk; simp
  | cons c rest ih =>
    intro ctx stk
    simp only [List.map_cons, parseToks]
    rw [ih]
    simp [List.reverse_cons, List.append_assoc]

theorem parsePat_plain (pat : String) (h : pat.data.all plainChar = true) :
    parsePat pat = some (litRE (pat.data.map Char.toLower)) := by
  unfold parsePat
  rw [lexPat_plain pat.data h]
  have hmm : (pat.data.map fun c => PTok.lit c.toLower) =
      ((pat.data.map Char.toLower).map PTok.lit) := by
    simp [List.map_map, Function.comp]
  simp only [Option.some_bind, hmm, parseToks_lits]
  simp [parseToks, finishCtx, litRE, List.append_nil]

theorem rmatch_foldl_mul (l : List RE) (r : RE) (t : List Char) :
    ((l.foldl (· * ·) r).rmatch t = true) ↔
      ∃ a u, t = a ++ u ∧ r.rmatch a = true ∧ SeqMatches l u := by
  induction l generalizing r t with
  | nil =>
    simp only [List.foldl_nil, SeqMatches]
    constructor
    · intro hr
      exact ⟨t, [], (List.append_nil t).symm, hr, rfl⟩
    · rintro ⟨a, u, ht, hr, hu⟩
      subst hu
      rw [List.append_nil] at ht
      subst ht
      exact hr
  | cons x xs ih =>
    rw [List.foldl_cons, ih]
    simp only [SeqMatches]
    constructor
    · rintro ⟨a, u, ht, hra, hsm⟩
      obtain ⟨b, c, hab, hrb, hrc⟩ := (RegularExpression.mul_rmatch_iff r x a).mp hra
      exact ⟨b, c ++ u, by simp [ht, hab, List.append_assoc], hrb, ⟨c, u, rfl, hrc, hsm⟩⟩
    · rintro ⟨a, u, ht, hra, c, u2, hu, hrc, hsm⟩
      refine ⟨a ++ c, u2, by simp [ht, hu, List.append_assoc], ?_, hsm⟩
      exact (RegularExpression.mul_rmatch_iff r x (a ++ c)).mpr ⟨a, c, rfl, hra, hrc⟩

theorem seqMatches_chars (cs t : List Char) :
    SeqMatches (cs.map RegularExpression.char) t ↔ t = cs := by
  induction cs generalizing t with
  | nil => simp [SeqMatches]
  | cons c cs ih =>
    simp only [List.map_cons, SeqMatches]
    constructor
    · rintro ⟨a, u, ht, hra, hsm⟩
      have ha : a = [c] := (RegularExpression.char_rmatch_iff c a).mp hra
      have hu : u = cs := (ih u).mp hsm
      simp [ht, ha, hu]
    · rintro rfl
      exact ⟨[c], cs, rfl, (RegularExpression.char_rmatch_iff c [c]).mpr rfl, (ih cs).mpr rfl⟩

theorem finishSeq_reverse_cons (f : RE) (fs : List RE) :
    finishSeq (f :: fs).reverse = fs.foldl (· * ·) f := by
  unfold finishSeq
  rw [List.reverse_reverse]

theorem rmatch_litRE (cs t : List Char) : ((litRE cs).rmatch t = true) ↔ t = cs := by
  cases cs with
  | nil => exact RegularExpression.one_rmatch_iff t
  | cons c cs2 =>
    have hshape : litRE (c :: cs2) =
        (cs2.map RegularExpression.char).foldl (· * ·) (RegularExpression.char c) := by
      unfold litRE
      rw [List.map_cons, finishSeq_reverse_cons]
    rw [hshape, rmatch_foldl_mul]
    constructor
    · rintro ⟨a, u, ht, hra, hsm⟩
      have ha : a = [c] := (RegularExpression.char_rmatch_iff c a).mp hra
      have hu : u = cs2 := (seqMatches_chars cs2 u).mp hsm
      simp [ht, ha, hu]
    · rintro rfl
      exact ⟨[c], cs2, rfl, (RegularExpression.char_rmatch_iff c [c]).mpr rfl,
        (seqMatches_chars cs2 cs2).mpr rfl⟩

theorem startsWithList_iff (p : List Char) : ∀ s : List Char,
    (startsWithList p s = true ↔ ∃ j, j ≤ s.length ∧ s.take j = p) := by
  induction p with
  | nil =>
    intro s
    constructor
    · intro _
      exact ⟨0, Nat.zero_le _, rfl⟩
    · intro _
      rfl
  | cons a as ih =>
    intro s
    cases s with
    | nil =>
      simp only [startsWithList]
      constructor
      · intro h
        exact absurd h (by simp)
      · rintro ⟨j, hj, ht⟩
        rw [List.take_nil] at ht
        exact absurd ht (by simp)
    | cons b bs =>
      simp only [startsWithList, Bool.and_eq_true, beq_iff_eq]
      constructor
      · rintro ⟨hab, hsw⟩
        obtain ⟨j, hj, ht⟩ := (ih bs).mp hsw
        refine ⟨j + 1, ?_, ?_⟩
        · simpa [List.length_cons] using Nat.succ_le_succ hj
        · rw [List.take_succ_cons, ht, hab]
      · rintro ⟨j, hj, ht⟩
        cases j with
        | zero => exact absurd ht (by simp)
        | succ j2 =>
          rw [List.take_succ_cons] at ht
          have hba : b = a := (List.cons.injEq _ _ _ _ ▸ ht).1
          have hta : bs.take j2 = as := (List.cons.injEq _ _ _ _ ▸ ht).2
          refine ⟨hba.symm, (ih bs).mpr ⟨j2, ?_, hta⟩⟩
          simp only [List.length_cons] at hj
          omega

theorem hasPrefixMatch_iff (r : RE) (s : List Char) :
    hasPrefixMatch r s = true ↔ ∃ j, j ≤ s.length ∧ r.rmatch (s.take j) = true := by
  unfold hasPrefixMatch
  rw [List.any_eq_true]
  constructor
  · rintro ⟨j, hj, h⟩
    exact ⟨j, Nat.lt_succ_iff.mp (List.mem_range.mp hj), h⟩
  · rintro ⟨j, hj, h⟩
    exact ⟨j, List.mem_range.mpr (Nat.lt_succ_iff.mpr hj), h⟩

theorem hasPrefixMatch_litRE (cs s : List Char) :
    hasPrefixMatch (litRE cs) s = startsWithList cs s := by
  rw [Bool.eq_iff_iff, hasPrefixMatch_iff, startsWithList_iff]
  constructor
  · rintro ⟨j, hj, h⟩
    exact ⟨j, hj, (rmatch_litRE cs _).mp h⟩
  · rintro ⟨j, hj, h⟩
    exact ⟨j, hj, (rmatch_litRE cs _).mpr h⟩

theorem rsearch_litRE (cs : List Char) : ∀ s : List Char,
    rsearch (litRE cs) s = containsSlice cs s := by
  intro s
  induction s with
  | nil => simp [rsearch, containsSlice, hasPrefixMatch_litRE]
  | cons c t ih => simp [rsearch, containsSlice, hasPrefixMatch_litRE, ih]

/-- Metacharacter-free patterns: Mongo's case-insensitive `$regex` match
coincides with case-insensitive substring containment. -/
theorem mongoRegexMatch_plain (pat text : String) (h : pat.data.all plainChar = true) :
    mongoRegexMatch pat text = substrCI pat text := by
  unfold mongoRegexMatch substrCI
  rw [parsePat_plain pat h]
  exact rsearch_litRE _ _


/-- Interpreting the filter document built by `search_properties` equals
the specification-shaped conjunction of optional predicates. -/
theorem searchFilter_eq_pred (sp : PropertySearch) (p : Property) :
    (buildSearchFilter sp).all (condHolds p) = searchPred sp p := by
  unfold buildSearchFilter searchPred
  simp only [List.all_append]
  have h1 : (if truthyStr sp.query then [Cond.orText (sp.query.getD "")] else []).all
      (condHolds p) =
      (match sp.query with
       | none => true
       | some q =>
         mongoRegexMatch q p.title || mongoRegexMatch q p.description ||
         mongoRegexMatch q p.address || mongoRegexMatch q p.city) := by
    cases hq : sp.query with
    | none => rfl
    | some q =>
      by_cases hq0 : q = ""
      · subst hq0
        simp [truthyStr, mongoRegexMatch_empty]
      · have ht : truthyStr (some q) = true := by simp [truthyStr, hq0]
        simp [ht, condHolds]
  have h2 : (match sp.property_type with | some t => [Cond.eqType t] | none => []).all
      (condHolds p) =
      (match sp.property_type with | none => true | some t => p.property_type == t) := by
    cases sp.property_type with
    | none => rfl
    | some t => simp [condHolds]
  have h3 : (match sp.status with | some t => [Cond.eqStatus t] | none => []).all
      (condHolds p) =
      (match sp.status with | none => true | some t => p.status == t) := by
    cases sp.status with
    | none => rfl
    | some t => simp [condHolds]
  have h4 : (match sp.min_price, sp.max_price with
      | none, none => [] | lo, hi => [Cond.rangeR .price lo hi]).all (condHolds p) =
      rangeHolds sp.min_price sp.max_price p.price := by
    cases sp.min_price <;> cases sp.max_price <;> simp [condHolds, rangeHolds, ratField]
  have h5 : (match sp.min_bedrooms, sp.max_bedrooms with
      | none, none => [] | lo, hi => [Cond.rangeI .bedrooms lo hi]).all (condHolds p) =
      rangeHolds sp.min_bedrooms sp.max_bedrooms p.bedrooms := by
    cases sp.min_bedrooms <;> cases sp.max_bedrooms <;> simp [condHolds, rangeHolds, intField]
  have h6 : (match sp.min_bathrooms, sp.max_bathrooms with
      | none, none => [] | lo, hi => [Cond.rangeI .bathrooms lo hi]).all (condHolds p) =
      rangeHolds sp.min_bathrooms sp.max_bathrooms p.bathrooms := by
    cases sp.min_bathrooms <;> cases sp.max_bathrooms <;> simp [condHolds, rangeHolds, intField]
  have h7 : (match sp.min_area, sp.max_area with
      | none, none => [] | lo, hi => [Cond.rangeR .area_sqft lo hi]).all (condHolds p) =
      rangeHolds sp.min_area sp.max_area p.area_sqft := by
    cases sp.min_area <;> cases sp.max_area <;> simp [condHolds, rangeHolds, ratField]
  have h8 : (if truthyStr sp.city then [Cond.regexStr .city (sp.city.getD "")] else []).all
      (condHolds p) =
      (match sp.city with | none => true | some c => mongoRegexMatch c p.city) := by
    cases hc : sp.city with
    | none => rfl
    | some c =>
      by_cases hc0 : c = ""
      · subst hc0
        simp [truthyStr, mongoRegexMatch_empty]
      · have ht : truthyStr (some c) = true := by simp [truthyStr, hc0]
        simp [ht, condHolds, strField]
  have h9 : (if truthyStr sp.state then [Cond.regexStr .state (sp.state.getD "")] else []).all
      (condHolds p) =
      (match sp.state with | none => true | some st => mongoRegexMatch st p.state) := by
    cases hc : sp.state with
    | none => rfl
    | some st =>
      by_cases hc0 : st = ""
      · subst hc0
        simp [truthyStr, mongoRegexMatch_empty]
      · have ht : truthyStr (some st) = true := by simp [truthyStr, hc0]
        simp [ht, condHolds, strField]
  have h10 : (match sp.is_featured with | some b => [Cond.eqFeatured b] | none => []).all
      (condHolds p) =
      (match sp.is_featured with | none => true | some b => p.is_featured == b) := by
    cases sp.is_featured with
    | none => rfl
    | some b => simp [condHolds]
  rw [h1, h2, h3, h4, h5, h6, h7, h8, h9, h10]

/-- Claim C1, counterexample: searching for the regex-special query
`"a+"` returns the sample property whose title is `"aa"`, although
`"a+"` is not a case-insensitive substring of any of its four text
fields — the free-text criterion is a regular-expression match, not a
substring match. -/
theorem search_properties_claim_false :
    search_properties spAplus s0 = [pAA] ∧
    substrCI "a+" pAA.title = false ∧
    substrCI "a+" pAA.description = false ∧
    substrCI "a+" pAA.address = false ∧
    substrCI "a+" pAA.city = false := by
  refine ⟨by decide, by decide, by decide, by decide, by decide⟩

/-- Claim C1, amended: `search_properties` returns exactly the
`(page, limit)` window — drop `(page−1)·limit` then take `limit` — of
the stored properties satisfying the conjunction of all supplied
predicates, where the free-text query (an OR group over title,
description, address, city) and the city/state criteria are matched as
case-insensitive unanchored regular expressions; on patterns free of
regex metacharacters this regex match coincides with the case-insensitive
substring match the claim states.  The exact-match and inclusive-range
predicates are as claimed, and every absent predicate matches all
properties. -/
theorem search_properties_regex_window (sp : PropertySearch) (s : DBState) :
    search_properties sp s =
      ((s.properties.filter (searchPred sp)).drop ((sp.page - 1) * sp.limit).toNat).take
        sp.limit.toNat ∧
    (∀ pat text : String, pat.data.all plainChar = true →
       mongoRegexMatch pat text = substrCI pat text) := by
  constructor
  · show
      ((s.properties.filter fun p => (buildSearchFilter sp).all (condHolds p)).drop
        ((sp.page - 1) * sp.limit).toNat).take sp.limit.toNat =
      ((s.properties.filter (searchPred sp)).drop ((sp.page - 1) * sp.limit).toNat).take
        sp.limit.toNat
    rw [List.filter_congr fun p _ => searchFilter_eq_pred sp p]
  · intro pat text h
    exact mongoRegexMatch_plain pat text h

/-- Claim C1, witness for `search_properties_regex_window`. -/
theorem search_properties_regex_window_witness :
    search_properties spVilla s0 =
      ((s0.properties.filter (searchPred spVilla)).drop
        ((spVilla.page - 1) * spVilla.limit).toNat).take spVilla.limit.toNat ∧
    mongoRegexMatch "villa" "Great VILLA in town" = substrCI "villa" "Great VILLA in town" :=
  ⟨(search_properties_regex_window spVilla s0).1,
   (search_properties_regex_window spVilla s0).2 "villa" "Great VILLA in town" (by decide)⟩

end RealEstate
